import Mathlib

/-!
Verification of the privy-agent0-provider wallet adapter.

Shallow embedding of `src/chains.ts` and `src/provider.ts` (the EIP-1193
request router and the wallet lifecycle helpers `createWallet` / `loadWallet`
/ `saveWallet` / `getOrCreateWallet`).  External collaborators are modelled
explicitly: the JS `JSON.parse` / `JSON.stringify` pair follows the ECMA-404
plus ECMA-262 semantics, `BigInt` and `Number` coercions follow the ECMA-262
string conversion grammars, the Privy custody client and the viem wallet
client are stubs whose invocations are recorded in call traces, the HTTP
transport is a stub function, and the file system is a map from paths to
file contents.
-/

/-- JSON value, as produced by the JS runtime's `JSON.parse`.  Numbers are
modelled as exact rationals (every number this development evaluates is
exactly representable as an IEEE double, so float rounding is not modelled). -/
inductive Json where
  | null
  | bool (b : Bool)
  | num (q : ℚ)
  | str (s : String)
  | arr (elems : List Json)
  | obj (fields : List (String × Json))

mutual
/-- Decidable equality on JSON values (the derive handler does not support
this nested inductive). -/
def Json.decEq : (a b : Json) → Decidable (a = b)
  | .null, .null => .isTrue rfl
  | .null, .bool _ => .isFalse (fun h => Json.noConfusion h)
  | .null, .num _ => .isFalse (fun h => Json.noConfusion h)
  | .null, .str _ => .isFalse (fun h => Json.noConfusion h)
  | .null, .arr _ => .isFalse (fun h => Json.noConfusion h)
  | .null, .obj _ => .isFalse (fun h => Json.noConfusion h)
  | .bool _, .null => .isFalse (fun h => Json.noConfusion h)
  | .bool a, .bool b =>
    if h : a = b then .isTrue (by rw [h]) else .isFalse (fun e => h (by injection e))
  | .bool _, .num _ => .isFalse (fun h => Json.noConfusion h)
  | .bool _, .str _ => .isFalse (fun h => Json.noConfusion h)
  | .bool _, .arr _ => .isFalse (fun h => Json.noConfusion h)
  | .bool _, .obj _ => .isFalse (fun h => Json.noConfusion h)
  | .num _, .null => .isFalse (fun h => Json.noConfusion h)
  | .num _, .bool _ => .isFalse (fun h => Json.noConfusion h)
  | .num a, .num b =>
    if h : a = b then .isTrue (by rw [h]) else .isFalse (fun e => h (by injection e))
  | .num _, .str _ => .isFalse (fun h => Json.noConfusion h)
  | .num _, .arr _ => .isFalse (fun h => Json.noConfusion h)
  | .num _, .obj _ => .isFalse (fun h => Json.noConfusion h)
  | .str _, .null => .isFalse (fun h => Json.noConfusion h)
  | .str _, .bool _ => .isFalse (fun h => Json.noConfusion h)
  | .str _, .num _ => .isFalse (fun h => Json.noConfusion h)
  | .str a, .str b =>
    if h : a = b then .isTrue (by rw [h]) else .isFalse (fun e => h (by injection e))
  | .str _, .arr _ => .isFalse (fun h => Json.noConfusion h)
  | .str _, .obj _ => .isFalse (fun h => Json.noConfusion h)
  | .arr _, .null => .isFalse (fun h => Json.noConfusion h)
  | .arr _, .bool _ => .isFalse (fun h => Json.noConfusion h)
  | .arr _, .num _ => .isFalse (fun h => Json.noConfusion h)
  | .arr _, .str _ => .isFalse (fun h => Json.noConfusion h)
  | .arr xs, .arr ys =>
    match Json.decEqList xs ys with
    | .isTrue h => .isTrue (by rw [h])
    | .isFalse h => .isFalse (fun e => h (by injection e))
  | .arr _, .obj _ => .isFalse (fun h => Json.noConfusion h)
  | .obj _, .null => .isFalse (fun h => Json.noConfusion h)
  | .obj _, .bool _ => .isFalse (fun h => Json.noConfusion h)
  | .obj _, .num _ => .isFalse (fun h => Json.noConfusion h)
  | .obj _, .str _ => .isFalse (fun h => Json.noConfusion h)
  | .obj _, .arr _ => .isFalse (fun h => Json.noConfusion h)
  | .obj xs, .obj ys =>
    match Json.decEqFields xs ys with
    | .isTrue h => .isTrue (by rw [h])
    | .isFalse h => .isFalse (fun e => h (by injection e))

/-- Decidable equality on lists of JSON values. -/
def Json.decEqList : (a b : List Json) → Decidable (a = b)
  | [], [] => .isTrue rfl
  | [], _ :: _ => .isFalse (fun h => List.noConfusion h)
  | _ :: _, [] => .isFalse (fun h => List.noConfusion h)
  | x :: xs, y :: ys =>
    match Json.decEq x y with
    | .isFalse h1 => .isFalse (fun e => h1 (by injection e))
    | .isTrue h1 =>
      match Json.decEqList xs ys with
      | .isTrue h2 => .isTrue (by rw [h1, h2])
      | .isFalse h2 => .isFalse (fun e => h2 (by injection e))

/-- Decidable equality on JSON object field lists. -/
def Json.decEqFields : (a b : List (String × Json)) → Decidable (a = b)
  | [], [] => .isTrue rfl
  | [], _ :: _ => .isFalse (fun h => List.noConfusion h)
  | _ :: _, [] => .isFalse (fun h => List.noConfusion h)
  | (k, v) :: xs, (l, w) :: ys =>
    if hk : k = l then
      match Json.decEq v w with
      | .isFalse h1 =>
        .isFalse (fun e => by
          injection e with e1 e2
          exact h1 (congrArg Prod.snd e1))
      | .isTrue h1 =>
        match Json.decEqFields xs ys with
        | .isTrue h2 => .isTrue (by rw [hk, h1, h2])
        | .isFalse h2 => .isFalse (fun e => by injection e with e1 e2; exact h2 e2)
    else
      .isFalse (fun e => by
        injection e with e1 e2
        exact hk (congrArg Prod.fst e1))
end

instance : DecidableEq Json := Json.decEq

/-- Lowercase hex digit character for a value below 16 (JS `toString(16)` and
`JSON.stringify` escapes both emit lowercase). -/
def hexDigitChar (n : Nat) : Char :=
  if n < 10 then Char.ofNat (48 + n) else Char.ofNat (87 + n)

/-- Numeric value of a hex digit character, upper or lower case. -/
def hexVal (c : Char) : Option Nat :=
  if 48 ≤ c.toNat ∧ c.toNat ≤ 57 then some (c.toNat - 48)
  else if 97 ≤ c.toNat ∧ c.toNat ≤ 102 then some (c.toNat - 87)
  else if 65 ≤ c.toNat ∧ c.toNat ≤ 70 then some (c.toNat - 55)
  else none

/-- Escape of one character inside a JSON string literal, per the ECMA-262
QuoteJSONString operation used by `JSON.stringify`. -/
def escChar (c : Char) : List Char :=
  if c = '"' then ['\\', '"']
  else if c = '\\' then ['\\', '\\']
  else if c.toNat = 8 then ['\\', 'b']
  else if c.toNat = 9 then ['\\', 't']
  else if c.toNat = 10 then ['\\', 'n']
  else if c.toNat = 12 then ['\\', 'f']
  else if c.toNat = 13 then ['\\', 'r']
  else if c.toNat < 32 then
    '\\' :: 'u' :: '0' :: '0' :: [hexDigitChar (c.toNat / 16), hexDigitChar (c.toNat % 16)]
  else [c]

/-- Escapes every character of a string body in turn. -/
def escList : List Char → List Char
  | [] => []
  | c :: cs => escChar c ++ escList cs

/-- Quoted, escaped JSON string literal for `s`. -/
def jsonQuote (s : String) : String :=
  "\"" ++ String.mk (escList s.data) ++ "\""

/-- Parses the body of a JSON string literal (everything after the opening
quote) up to and including the closing quote, undoing the escapes accepted by
`JSON.parse`.  Returns the decoded characters and the rest of the input.
The fuel argument only keeps the recursion structural: every step consumes at
least one input character, so any fuel above the input length is enough, and
callers pass `length + 1`.  Surrogate code units cannot inhabit a Lean
`Char`; a `\uXXXX` escape in the surrogate range decodes to U+FFFD (such
escapes are never produced by `escChar` and are exercised by no claim). -/
def psb : Nat → List Char → Option (List Char × List Char)
  | 0, _ => none
  | _ + 1, [] => none
  | f + 1, c :: rest =>
    if c = '"' then some ([], rest)
    else if c = '\\' then
      match rest with
      | [] => none
      | e :: rs =>
        if e = '"' then (psb f rs).map (fun p => ('"' :: p.1, p.2))
        else if e = '\\' then (psb f rs).map (fun p => ('\\' :: p.1, p.2))
        else if e = '/' then (psb f rs).map (fun p => ('/' :: p.1, p.2))
        else if e = 'b' then (psb f rs).map (fun p => (Char.ofNat 8 :: p.1, p.2))
        else if e = 'f' then (psb f rs).map (fun p => (Char.ofNat 12 :: p.1, p.2))
        else if e = 'n' then (psb f rs).map (fun p => (Char.ofNat 10 :: p.1, p.2))
        else if e = 'r' then (psb f rs).map (fun p => (Char.ofNat 13 :: p.1, p.2))
        else if e = 't' then (psb f rs).map (fun p => (Char.ofNat 9 :: p.1, p.2))
        else if e = 'u' then
          match rs with
          | h1 :: h2 :: h3 :: h4 :: rs2 =>
            (match hexVal h1, hexVal h2, hexVal h3, hexVal h4 with
             | some a, some b, some c2, some d =>
               let n := ((a * 16 + b) * 16 + c2) * 16 + d
               let ch := if 0xD800 ≤ n ∧ n ≤ 0xDFFF then Char.ofNat 0xFFFD else Char.ofNat n
               (psb f rs2).map (fun p => (ch :: p.1, p.2))
             | _, _, _, _ => none)
          | _ => none
        else none
    else if c.toNat < 32 then none else (psb f rest).map (fun p => (c :: p.1, p.2))

/-- JSON insignificant whitespace. -/
def isJsonWs (c : Char) : Bool :=
  c = ' ' || c = '\t' || c = '\n' || c = '\r'

/-- Drops leading JSON whitespace. -/
def skipWs (cs : List Char) : List Char := cs.dropWhile isJsonWs

/-- Decimal digit test on characters. -/
def isDigitChar (c : Char) : Bool := 48 ≤ c.toNat && c.toNat ≤ 57

/-- Value of a big-endian list of decimal digit characters. -/
def digitsToNat (ds : List Char) : Nat :=
  ds.foldl (fun a c => a * 10 + (c.toNat - 48)) 0

/-- Parses a JSON number literal (RFC 8259 grammar) from the head of the
input, returning its exact decimal value. -/
def parseNum (cs : List Char) : Option (ℚ × List Char) :=
  let sp : Bool × List Char :=
    match cs with
    | '-' :: t => (true, t)
    | _ => (false, cs)
  match sp.2 with
  | [] => none
  | c :: _ =>
    if ¬ isDigitChar c then none
    else
      let ir : List Char × List Char :=
        if c = '0' then ([c], sp.2.tail)
        else sp.2.span isDigitChar
      let ip : ℚ := (digitsToNat ir.1 : ℚ)
      let fr : Option ℚ × List Char :=
        match ir.2 with
        | '.' :: t =>
          let fs := t.span isDigitChar
          if fs.1 = [] then (none, ir.2)
          else (some (ip + (digitsToNat fs.1 : ℚ) / (10 : ℚ) ^ fs.1.length), fs.2)
        | _ => (some ip, ir.2)
      match fr.1 with
      | none => none
      | some q2 =>
        match fr.2 with
        | e :: t =>
          if e = 'e' ∨ e = 'E' then
            let st : Int × List Char :=
              match t with
              | '+' :: t3 => ((1 : Int), t3)
              | '-' :: t3 => ((-1 : Int), t3)
              | _ => ((1 : Int), t)
            let es := st.1 * (digitsToNat (st.2.span isDigitChar).1 : Int)
            if (st.2.span isDigitChar).1 = [] then none
            else some ((if sp.1 then -1 else 1) * q2 * (10 : ℚ) ^ es, (st.2.span isDigitChar).2)
          else some ((if sp.1 then -1 else 1) * q2, fr.2)
        | [] => some ((if sp.1 then -1 else 1) * q2, fr.2)

mutual
/-- Fuel-indexed JSON value parser following `JSON.parse`.  Every recursive
call strictly decreases the fuel; `parseJson` supplies fuel exceeding the
nesting depth of any parseable input. -/
def parseVal : Nat → List Char → Option (Json × List Char)
  | 0, _ => none
  | f + 1, cs =>
    match skipWs cs with
    | 'n' :: 'u' :: 'l' :: 'l' :: r => some (.null, r)
    | 't' :: 'r' :: 'u' :: 'e' :: r => some (.bool true, r)
    | 'f' :: 'a' :: 'l' :: 's' :: 'e' :: r => some (.bool false, r)
    | '"' :: r => (psb (r.length + 1) r).map (fun p => (.str (String.mk p.1), p.2))
    | '[' :: r =>
      (match skipWs r with
       | ']' :: r2 => some (.arr [], r2)
       | _ => parseItems f r)
    | '\x7b' :: r =>
      (match skipWs r with
       | '\x7d' :: r2 => some (.obj [], r2)
       | _ => parseMems f r)
    | cs2 => (parseNum cs2).map (fun p => (.num p.1, p.2))

/-- Parses the comma-separated items of a nonempty JSON array, including the
closing bracket. -/
def parseItems : Nat → List Char → Option (Json × List Char)
  | 0, _ => none
  | f + 1, cs =>
    match parseVal f cs with
    | none => none
    | some (v, r) =>
      match skipWs r with
      | ',' :: r2 =>
        (match parseItems f r2 with
         | some (Json.arr vs, r3) => some (.arr (v :: vs), r3)
         | _ => none)
      | ']' :: r2 => some (.arr [v], r2)
      | _ => none

/-- Parses the comma-separated members of a nonempty JSON object, including
the closing brace. -/
def parseMems : Nat → List Char → Option (Json × List Char)
  | 0, _ => none
  | f + 1, cs =>
    match skipWs cs with
    | '"' :: r =>
      (match psb (r.length + 1) r with
       | none => none
       | some (k, r1) =>
         match skipWs r1 with
         | ':' :: r2 =>
           (match parseVal f r2 with
            | none => none
            | some (v, r3) =>
              match skipWs r3 with
              | ',' :: r4 =>
                (match parseMems f r4 with
                 | some (Json.obj ms, r5) => some (.obj ((String.mk k, v) :: ms), r5)
                 | _ => none)
              | '\x7d' :: r4 => some (.obj [(String.mk k, v)], r4)
              | _ => none)
         | _ => none)
    | _ => none
end

/-- Model of `JSON.parse`: parse one value, then require only trailing
whitespace.  The fuel `s.length + 1` dominates the nesting depth of any
parseable input. -/
def parseJson (s : String) : Option Json :=
  match parseVal (s.length + 1) s.data with
  | some (v, r) => if skipWs r = [] then some v else none
  | none => none

/-- Rendering of a JS number as `JSON.stringify` and template literals print
it.  Exact for integers; non-integral values print via their finite decimal
expansion when one exists (every IEEE double has one; JS switches to exponent
notation outside 1e-7 .. 1e21, which no claim exercises). -/
def numToString (q : ℚ) : String :=
  if q.den = 1 then toString q.num
  else
    match (List.range 40).find? (fun k => 10 ^ k % q.den = 0) with
    | some k =>
      let scaled := q.num.natAbs * 10 ^ k / q.den
      let ip := scaled / 10 ^ k
      let fr := scaled % 10 ^ k
      let frs := toString fr
      let pad := String.mk (List.replicate (k - frs.length) '0')
      (if q.num < 0 then "-" else "") ++ toString ip ++ "." ++ pad ++ frs
    | none => toString q.num ++ "/" ++ toString q.den

mutual
/-- JS string conversion of a single JSON value, as a template literal
performs it: arrays join their elements with commas, plain objects print
as the tag "[object Object]". -/
def jsDisplayJ : Json → String
  | .null => "null"
  | .bool b => cond b "true" "false"
  | .num q => numToString q
  | .str s => s
  | .arr xs => jsDisplayItems xs
  | .obj _ => "[object Object]"

/-- Comma join of array elements for `Array.prototype.toString`. -/
def jsDisplayItems : List Json → String
  | [] => ""
  | [x] => jsDisplayItem x
  | x :: y :: tl => jsDisplayItem x ++ "," ++ jsDisplayItems (y :: tl)

/-- One array element inside a join: null prints empty, the rest as usual. -/
def jsDisplayItem : Json → String
  | .null => ""
  | .bool b => cond b "true" "false"
  | .num q => numToString q
  | .str s => s
  | .arr xs => jsDisplayItems xs
  | .obj _ => "[object Object]"
end

/-- JS string conversion of a possibly-undefined value. -/
def jsDisplay : Option Json → String
  | none => "undefined"
  | some v => jsDisplayJ v

mutual
/-- Compact `JSON.stringify` (no indent argument), as used by `proxyToRpc`
to build the request body. -/
def stringifyC : Json → String
  | .null => "null"
  | .bool b => cond b "true" "false"
  | .num q => numToString q
  | .str s => jsonQuote s
  | .arr xs => "[" ++ stringifyItems xs ++ "]"
  | .obj kvs => "\x7b" ++ stringifyFields kvs ++ "\x7d"

/-- Comma join of serialized array items. -/
def stringifyItems : List Json → String
  | [] => ""
  | [x] => stringifyC x
  | x :: y :: tl => stringifyC x ++ "," ++ stringifyItems (y :: tl)

/-- Comma join of serialized object members. -/
def stringifyFields : List (String × Json) → String
  | [] => ""
  | [kv] => jsonQuote kv.1 ++ ":" ++ stringifyC kv.2
  | kv :: m :: tl => jsonQuote kv.1 ++ ":" ++ stringifyC kv.2 ++ "," ++ stringifyFields (m :: tl)
end

/-- Network entry: models the viem `Chain` objects re-exported by
`src/chains.ts` (`mainnet`, `sepolia`, `base`) by their identifying
metadata. -/
structure Chain where
  id : Nat
  name : String
deriving DecidableEq

/-- The viem mainnet chain object. -/
def mainnet : Chain := ⟨1, "Ethereum"⟩

/-- The viem sepolia chain object. -/
def sepolia : Chain := ⟨11155111, "Sepolia"⟩

/-- The viem base chain object. -/
def base : Chain := ⟨8453, "Base"⟩

/-- CHAIN_MAP from `src/chains.ts`: a JS object keyed by the numeric chain
id. -/
def CHAIN_MAP (chainId : Nat) : Option Chain :=
  if chainId = 1 then some mainnet
  else if chainId = 11155111 then some sepolia
  else if chainId = 8453 then some base
  else none

/-- Keys of `CHAIN_MAP` as `Object.keys(CHAIN_MAP).join(', ')` yields them:
JS enumerates integer-like own keys in ascending numeric order. -/
def chainMapKeys : String := "1, 8453, 11155111"

/-- Model of `resolveChain` from `src/chains.ts`: look the id up in
`CHAIN_MAP` and throw an unsupported-chain error when absent. -/
def resolveChain (chainId : Nat) : Except String Chain :=
  match CHAIN_MAP chainId with
  | some c => .ok c
  | none =>
    .error ("Unsupported chain ID: " ++ toString chainId ++ ". Supported: " ++ chainMapKeys)

/-- Digits of `n` in base 16, most significant first, by structural fuel
recursion (any fuel above the digit count of `n` is enough; `natToHex`
passes `n + 1`). -/
def natToHexCore : Nat → Nat → List Char
  | 0, _ => []
  | f + 1, n =>
    if n < 16 then [hexDigitChar n]
    else natToHexCore f (n / 16) ++ [hexDigitChar (n % 16)]

/-- JS `Number.prototype.toString(16)` on a natural number: lowercase
hexadecimal digits, most significant first. -/
def natToHex (n : Nat) : String :=
  String.mk (natToHexCore (n + 1) n)

/-- Persisted wallet record (`PersistedWallet` from `src/types.ts`): five
string fields. -/
structure PersistedWallet where
  walletId : String
  address : String
  authPrivateKey : String
  authPublicKey : String
  createdAt : String
deriving DecidableEq

/-- File system state: maps a resolved path to the contents of the file
there, if any. -/
def FS : Type := String → Option String

/-- Overwrites (or creates) the file at path `p`. -/
def fsWrite (fs : FS) (p content : String) : FS :=
  fun q => if q = p then some content else fs q

/-- DEFAULT_WALLET_FILE from `src/wallet.ts`. -/
def DEFAULT_WALLET_FILE : String := ".privy-wallet.json"

/-- Path resolution `path.resolve(filePath ?? DEFAULT_WALLET_FILE)`: the
defaulting is modelled directly; absolutisation against the working
directory is injective and applied identically by load and save, so it is
the identity here. -/
def resolvePath (filePath : Option String) : String :=
  filePath.getD DEFAULT_WALLET_FILE

/-- JSON object `JSON.parse` produces for a persisted wallet record. -/
def walletToJson (w : PersistedWallet) : Json :=
  .obj [("walletId", .str w.walletId), ("address", .str w.address),
        ("authPrivateKey", .str w.authPrivateKey),
        ("authPublicKey", .str w.authPublicKey), ("createdAt", .str w.createdAt)]

/-- Output of `JSON.stringify(wallet, null, 2)` at the record type: five
string fields, two-space indent, insertion order. -/
def serializeWallet (w : PersistedWallet) : String :=
  "\x7b\n  \"walletId\": " ++ jsonQuote w.walletId ++
  ",\n  \"address\": " ++ jsonQuote w.address ++
  ",\n  \"authPrivateKey\": " ++ jsonQuote w.authPrivateKey ++
  ",\n  \"authPublicKey\": " ++ jsonQuote w.authPublicKey ++
  ",\n  \"createdAt\": " ++ jsonQuote w.createdAt ++ "\n\x7d"

/-- Model of `loadWallet` (`src/wallet.ts`).  The TS body runs
`JSON.parse(fs.readFileSync(resolved, 'utf-8')) as PersistedWallet`; the
`as` cast performs no validation, so the call returns whatever JSON value
the file holds, a missing file returns null, and unparseable content throws
the `JSON.parse` SyntaxError. -/
def loadWallet (fs : FS) (filePath : Option String) : Except String Json :=
  match fs (resolvePath filePath) with
  | none => .ok .null
  | some content =>
    match parseJson content with
    | some j => .ok j
    | none => .error "SyntaxError: Unexpected token in JSON"

/-- Model of `saveWallet` (`src/wallet.ts`): writes
`JSON.stringify(wallet, null, 2) + '\n'` to the resolved path. -/
def saveWallet (fs : FS) (w : PersistedWallet) (filePath : Option String) : FS :=
  fsWrite fs (resolvePath filePath) (serializeWallet w ++ "\n")

/-- Stub for the external effects of `createWallet`: the locally generated
P-256 authorization keypair, the outcome of the custody service
`wallets().create` call (wallet id and address on success), and the current
timestamp. -/
structure PrivyStub where
  publicKey : String
  privateKey : String
  createResult : Except String (String × String)
  now : String

/-- Model of `createWallet` (`src/wallet.ts`): generates a keypair, asks the
custody service to create a wallet owned by its public half, and combines
the service's wallet id and address with the keypair and the timestamp.  A
failing service call propagates and the keypair is discarded. -/
def createWallet (stub : PrivyStub) : Except String PersistedWallet :=
  match stub.createResult with
  | .error e => .error e
  | .ok idAddr => .ok
      { walletId := idAddr.1, address := idAddr.2,
        authPrivateKey := stub.privateKey, authPublicKey := stub.publicKey,
        createdAt := stub.now }

/-- JS truthiness of a JSON value. -/
def isTruthy : Json → Bool
  | .null => false
  | .bool b => b
  | .num q => decide (q ≠ 0)
  | .str s => decide (s ≠ "")
  | .arr _ => true
  | .obj _ => true

/-- Model of `getOrCreateWallet` (`src/wallet.ts`): load, return the loaded
value when truthy, otherwise create and save.  The third component counts
the `createWallet` invocations. -/
def getOrCreateWallet (stub : PrivyStub) (fs : FS) (filePath : Option String) :
    Except String Json × FS × Nat :=
  match loadWallet fs filePath with
  | .error e => (.error e, fs, 0)
  | .ok existing =>
    if isTruthy existing then (.ok existing, fs, 0)
    else
      match createWallet stub with
      | .error e => (.error e, fs, 1)
      | .ok w => (.ok (walletToJson w), saveWallet fs w filePath, 1)

/-- JS whitespace trimmed by `Number` and `BigInt` string conversion (ASCII
whitespace and line terminators; the exotic Unicode spaces are exercised by
no claim). -/
def isJsWs (c : Char) : Bool :=
  c = ' ' || c = '\t' || c = '\n' || c = '\r' || c = '\x0b' || c = '\x0c'

/-- Trims JS whitespace from both ends of a string. -/
def jsTrim (s : String) : List Char :=
  ((s.data.dropWhile isJsWs).reverse.dropWhile isJsWs).reverse

/-- Value of a digit character in the given radix, when valid for it. -/
def radixDigit (radix : Nat) (c : Char) : Option Nat :=
  match hexVal c with
  | some v => if v < radix then some v else none
  | none => none

/-- Value of a digit string in the given radix, when every character is a
valid digit (the empty string yields zero; callers exclude it). -/
def radixVal (radix : Nat) (cs : List Char) : Option Nat :=
  cs.foldl (fun acc c =>
    match acc, radixDigit radix c with
    | some a, some v => some (a * radix + v)
    | _, _ => none) (some 0)

/-- Nonempty all-decimal digit string value. -/
def decVal (cs : List Char) : Option Nat :=
  if cs = [] then none
  else if cs.all isDigitChar then some (digitsToNat cs) else none

/-- ECMA-262 StringToBigInt: optional whitespace around either a decimal
integer literal with optional sign, or an unsigned binary / octal / hex
literal with a 0b / 0o / 0x prefix; the empty string denotes zero. -/
def strToBigInt (s : String) : Option Int :=
  match jsTrim s with
  | [] => some 0
  | '0' :: 'x' :: rest => if rest = [] then none else (radixVal 16 rest).map Int.ofNat
  | '0' :: 'X' :: rest => if rest = [] then none else (radixVal 16 rest).map Int.ofNat
  | '0' :: 'o' :: rest => if rest = [] then none else (radixVal 8 rest).map Int.ofNat
  | '0' :: 'O' :: rest => if rest = [] then none else (radixVal 8 rest).map Int.ofNat
  | '0' :: 'b' :: rest => if rest = [] then none else (radixVal 2 rest).map Int.ofNat
  | '0' :: 'B' :: rest => if rest = [] then none else (radixVal 2 rest).map Int.ofNat
  | '+' :: rest => (decVal rest).map Int.ofNat
  | '-' :: rest => (decVal rest).map (fun n => -(n : Int))
  | rest => (decVal rest).map Int.ofNat

/-- ECMA-262 ToBigInt as `BigInt(value)` applies it to the values a JSON
transaction field can hold: exact for integral numbers, RangeError on
non-integral ones, strings via StringToBigInt, booleans to 0 / 1, arrays
via their string conversion, plain objects likewise (their string
conversion "[object Object]" never parses). -/
def jsBigInt : Json → Except String Int
  | .num q => if q.den = 1 then .ok q.num else .error "RangeError: not an integer"
  | .str s =>
    match strToBigInt s with
    | some i => .ok i
    | none => .error ("SyntaxError: Cannot convert " ++ s ++ " to a BigInt")
  | .bool b => .ok (cond b 1 0)
  | .null => .error "TypeError: Cannot convert null to a BigInt"
  | .arr xs =>
    match strToBigInt (jsDisplayJ (.arr xs)) with
    | some i => .ok i
    | none => .error "SyntaxError: Cannot convert array to a BigInt"
  | .obj _ => .error "SyntaxError: Cannot convert [object Object] to a BigInt"

/-- JS number result: NaN, a signed infinity, or a finite value (finite
values exact; see `Json.num`). -/
inductive JsNum where
  | nan
  | inf (neg : Bool)
  | val (q : ℚ)
deriving DecidableEq

/-- Parses a complete unsigned decimal literal
`digits ('.' digits?)? exp? | '.' digits exp?` and yields its exact value;
anything else (including trailing characters) fails. -/
def decLitVal (cs : List Char) : Option ℚ :=
  let ip := cs.span isDigitChar
  let frac : Option (List Char × List Char × List Char) :=
    match ip.2 with
    | '.' :: t =>
      let fp := t.span isDigitChar
      if ip.1 = [] ∧ fp.1 = [] then none else some (ip.1, fp.1, fp.2)
    | _ => if ip.1 = [] then none else some (ip.1, [], ip.2)
  match frac with
  | none => none
  | some (ids, fds, rest) =>
    let mant : ℚ := (digitsToNat ids : ℚ) + (digitsToNat fds : ℚ) / (10 : ℚ) ^ fds.length
    match rest with
    | [] => some mant
    | e :: t =>
      if e = 'e' ∨ e = 'E' then
        let st : Int × List Char :=
          match t with
          | '+' :: t3 => (1, t3)
          | '-' :: t3 => (-1, t3)
          | _ => (1, t)
        let ed := st.2.span isDigitChar
        if ed.1 = [] ∨ ed.2 ≠ [] then none
        else some (mant * (10 : ℚ) ^ (st.1 * (digitsToNat ed.1 : Int)))
      else none

/-- Signed tail of a decimal string literal: Infinity or a decimal
literal. -/
def signedTail (neg : Bool) (cs : List Char) : JsNum :=
  if cs = ['I', 'n', 'f', 'i', 'n', 'i', 't', 'y'] then .inf neg
  else
    match decLitVal cs with
    | some q => .val (if neg then -q else q)
    | none => .nan

/-- ECMA-262 StringToNumber: the trimmed empty string is zero; an optional
sign with Infinity or a decimal literal; unsigned 0x / 0o / 0b radix
literals; anything else is NaN. -/
def strToNumber (s : String) : JsNum :=
  match jsTrim s with
  | [] => .val 0
  | '0' :: 'x' :: rest =>
    (match radixVal 16 rest with
     | some v => if rest = [] then .nan else .val v
     | none => .nan)
  | '0' :: 'X' :: rest =>
    (match radixVal 16 rest with
     | some v => if rest = [] then .nan else .val v
     | none => .nan)
  | '0' :: 'o' :: rest =>
    (match radixVal 8 rest with
     | some v => if rest = [] then .nan else .val v
     | none => .nan)
  | '0' :: 'O' :: rest =>
    (match radixVal 8 rest with
     | some v => if rest = [] then .nan else .val v
     | none => .nan)
  | '0' :: 'b' :: rest =>
    (match radixVal 2 rest with
     | some v => if rest = [] then .nan else .val v
     | none => .nan)
  | '0' :: 'B' :: rest =>
    (match radixVal 2 rest with
     | some v => if rest = [] then .nan else .val v
     | none => .nan)
  | '+' :: rest => signedTail false rest
  | '-' :: rest => signedTail true rest
  | rest => signedTail false rest

/-- ECMA-262 ToNumber as `Number(value)` applies it to the values a JSON
transaction field can hold.  Finite results are exact rationals; rounding to
the nearest IEEE double is not modelled (every claim evaluates this only
where the decimal value is itself representable). -/
def jsNumber : Json → JsNum
  | .num q => .val q
  | .str s => strToNumber s
  | .bool b => .val (cond b 1 0)
  | .null => .val 0
  | .arr xs => strToNumber (jsDisplayJ (.arr xs))
  | .obj _ => .nan

/-- Last-occurrence lookup of an object field; non-objects have no own
fields (property access on a JS primitive yields undefined for every
property name the router reads). -/
def jget : Json → String → Option Json
  | .obj kvs, k => kvs.foldl (fun acc p => if p.1 = k then some p.2 else acc) none
  | _, _ => none

/-- Nullish coalescing `a ?? b` on possibly-undefined JSON values. -/
def nullish (a b : Option Json) : Option Json :=
  match a with
  | none => b
  | some .null => b
  | some v => some v

/-- Indexing `params[i]` through the router's parameter casts: arrays index
positionally, objects read the key "0" / "1", strings index their
characters, other primitives yield undefined, null and undefined throw. -/
def elemAt (params : Option Json) (i : Nat) : Except String (Option Json) :=
  match params with
  | none => .error "TypeError: Cannot read properties of undefined"
  | some .null => .error "TypeError: Cannot read properties of null"
  | some (.arr xs) => .ok xs[i]?
  | some (.obj kvs) => .ok (jget (.obj kvs) (toString i))
  | some (.str s) => .ok ((s.data[i]?).map (fun c => Json.str (String.mk [c])))
  | some _ => .ok none

/-- One invocation of the viem wallet client, with the exact arguments the
router passes. -/
inductive SignCall where
  | sendTransaction (toAddr : Option Json) (data : Option Json) (value : Option Int)
      (gas : Option Int) (nonce : Option JsNum) (chain : Chain)
  | signMessage (raw : Option Json)
  | signTypedData (domain : Option Json) (types : List (String × Json))
      (primaryType : Option Json) (message : Option Json)
deriving DecidableEq

/-- One HTTP POST issued by `proxyToRpc`. -/
structure RpcCall where
  url : String
  body : String
deriving DecidableEq

/-- Stub HTTP transport: the parsed JSON of the response to a POST of the
given body at the given URL. -/
def Transport : Type := String → String → Json

/-- Stub viem wallet client backed by the Privy account: the outcome of each
possible invocation (a throwing stub yields an error). -/
structure WalletStub where
  respond : SignCall → Except String Json

/-- Router configuration: the provider closes over the configured address,
chain id and RPC URL (`src/provider.ts` lines 44-47). -/
structure RouterCfg where
  walletAddress : String
  chainId : Nat
  rpcUrl : String

/-- Result of one `request` call: the outcome (`none` models JS undefined),
the list of HTTP POSTs issued, and the wallet-client invocations made. -/
abbrev ReqOutcome := Except String (Option Json) × List RpcCall × List SignCall

/-- JS nullish default `params ?? []` (provider.ts line 59): both undefined
and null fall back to the empty array. -/
def paramsOrEmpty : Option Json → Json
  | none => .arr []
  | some .null => .arr []
  | some v => v

/-- JSON body built by `proxyToRpc`: `JSON.stringify` of the object with
jsonrpc, id, method and params, the params defaulting to the empty array
when absent or null (`params ?? []`). -/
def rpcBody (method : String) (params : Option Json) : String :=
  stringifyC (.obj [("jsonrpc", .str "2.0"), ("id", .num 1),
                    ("method", .str method), ("params", paramsOrEmpty params)])

/-- Model of `proxyToRpc` (`src/provider.ts` lines 55-67): one POST of the
JSON-RPC body to the configured URL; a truthy `error` field in the response
throws an error naming the method and the error's message, otherwise the
response's `result` field is returned. -/
def proxyToRpc (tr : Transport) (rpcUrl method : String) (params : Option Json) : ReqOutcome :=
  let body := rpcBody method params
  let json := tr rpcUrl body
  let calls := [RpcCall.mk rpcUrl body]
  match json with
  | .null => (.error "TypeError: Cannot read properties of null", calls, [])
  | j =>
    match jget j "error" with
    | some e =>
      if isTruthy e then
        (.error ("RPC error (" ++ method ++ "): " ++ jsDisplay (jget e "message")), calls, [])
      else (.ok (jget j "result"), calls, [])
    | none => (.ok (jget j "result"), calls, [])

/-- Coercion the router applies to `value` and `gas`:
`tx.f != null ? BigInt(tx.f) : undefined` (the loose inequality excludes
both null and undefined). -/
def coerceBig (f : Option Json) : Except String (Option Int) :=
  match f with
  | none => .ok none
  | some .null => .ok none
  | some v => (jsBigInt v).map some

/-- Coercion the router applies to `nonce`:
`tx.nonce != null ? Number(tx.nonce) : undefined` (never throws). -/
def coerceNum (f : Option Json) : Option JsNum :=
  match f with
  | none => none
  | some .null => none
  | some v => some (jsNumber v)

/-- Builds the `sendTransaction` invocation from the first element of
`params` (`src/provider.ts` lines 84-95): to and data pass through
verbatim, value and gas go through BigInt, nonce goes through Number. -/
def buildSendCall (tx : Option Json) (chain : Chain) : Except String SignCall :=
  match tx with
  | none => .error "TypeError: Cannot read properties of undefined"
  | some .null => .error "TypeError: Cannot read properties of null"
  | some t =>
    match coerceBig (jget t "value") with
    | .error e => .error e
    | .ok value =>
      match coerceBig (jget t "gas") with
      | .error e => .error e
      | .ok gas =>
        .ok (SignCall.sendTransaction (jget t "to") (jget t "data") value gas
          (coerceNum (jget t "nonce")) chain)

/-- Invokes the wallet-client stub and converts its outcome into a request
result, recording the call in the trace. -/
def runSign (stub : WalletStub) (call : SignCall) : ReqOutcome :=
  match stub.respond call with
  | .ok h => (.ok (some h), [], [call])
  | .error e => (.error e, [], [call])

/-- Strips the conventional EIP712Domain declaration from the types map:
the object rest-spread the router performs on `typedData.types`. -/
def stripEIP712Domain (kvs : List (String × Json)) : List (String × Json) :=
  kvs.filter (fun p => p.1 ≠ "EIP712Domain")

/-- Builds the `signTypedData` invocation from the second element of
`params` (`src/provider.ts` lines 105-117): a string payload is
JSON-parsed first, the domain declaration is dropped from `types`, and the
primary type is read from `primaryType` or, when that is nullish, from
`primary_type`.  Destructuring a primitive `types` spreads to an empty
field list (string index properties are not modelled; no claim uses
them). -/
def buildTypedCall (raw : Option Json) : Except String SignCall :=
  let parsedE : Except String (Option Json) :=
    match raw with
    | some (.str s) =>
      match parseJson s with
      | some j => .ok (some j)
      | none => .error "SyntaxError: Unexpected token in JSON"
    | v => .ok v
  match parsedE with
  | .error e => .error e
  | .ok none => .error "TypeError: Cannot read properties of undefined"
  | .ok (some .null) => .error "TypeError: Cannot read properties of null"
  | .ok (some v) =>
    match jget v "types" with
    | none => .error "TypeError: Cannot destructure undefined"
    | some .null => .error "TypeError: Cannot destructure null"
    | some (.obj kvs) =>
      .ok (SignCall.signTypedData (jget v "domain") (stripEIP712Domain kvs)
        (nullish (jget v "primaryType") (jget v "primary_type")) (jget v "message"))
    | some _ =>
      .ok (SignCall.signTypedData (jget v "domain") []
        (nullish (jget v "primaryType") (jget v "primary_type")) (jget v "message"))

/-- Model of the provider's `request` method (`src/provider.ts` lines
69-123): the enumerated methods are handled directly (accounts and chain id
from configuration, the three signing operations through the wallet
client), every other method is proxied as a JSON-RPC POST. -/
def request (cfg : RouterCfg) (chain : Chain) (stub : WalletStub) (tr : Transport)
    (method : String) (params : Option Json) : ReqOutcome :=
  if method = "eth_accounts" ∨ method = "eth_requestAccounts" then
    (.ok (some (.arr [.str cfg.walletAddress])), [], [])
  else if method = "eth_chainId" then
    (.ok (some (.str ("0x" ++ natToHex cfg.chainId))), [], [])
  else if method = "eth_sendTransaction" then
    match elemAt params 0 with
    | .error e => (.error e, [], [])
    | .ok tx =>
      match buildSendCall tx chain with
      | .error e => (.error e, [], [])
      | .ok call => runSign stub call
  else if method = "personal_sign" then
    match elemAt params 0 with
    | .error e => (.error e, [], [])
    | .ok msg => runSign stub (SignCall.signMessage msg)
  else if method = "eth_signTypedData_v4" then
    match elemAt params 1 with
    | .error e => (.error e, [], [])
    | .ok raw =>
      match buildTypedCall raw with
      | .error e => (.error e, [], [])
      | .ok call => runSign stub call
  else proxyToRpc tr cfg.rpcUrl method params

/-- Model of `createPrivyProvider` (`src/provider.ts`): the chain is
resolved at construction time (an unsupported id throws there) and the
configuration is closed over; the provider is its `request` method. -/
def createPrivyProvider (cfg : RouterCfg) (stub : WalletStub) (tr : Transport) :
    Except String (String → Option Json → ReqOutcome) :=
  match resolveChain cfg.chainId with
  | .error e => .error e
  | .ok chain => .ok (request cfg chain stub tr)

theorem hexVal_hexDigitChar : ∀ n, n < 16 → hexVal (hexDigitChar n) = some n := by decide

/-- Appending after an escaped character chain distributes. -/
theorem escList_append (a b : List Char) : escList (a ++ b) = escList a ++ escList b := by
  induction a with
  | nil => simp [escList]
  | cons c cs ih => simp [escList, ih]

/-- Two characters with the same code are equal. -/
theorem charOfToNat (c : Char) (n : Nat) (h : c.toNat = n) : c = Char.ofNat n := by
  rw [← h, Char.ofNat_toNat]

/-- Escaping never shrinks a string. -/
theorem escList_len : ∀ cs : List Char, cs.length ≤ (escList cs).length
  | [] => Nat.le_refl 0
  | c :: cs => by
    have h1 : 1 ≤ (escChar c).length := by
      unfold escChar
      split_ifs <;> simp
    have ih := escList_len cs
    simp only [escList, List.length_append, List.length_cons]
    omega

/-- Unescaping inverts escaping: with enough fuel, parsing an escaped string
body followed by the closing quote recovers the original characters and the
rest of the input. -/
theorem psb_escList : ∀ (cs rest : List Char) (f : Nat), cs.length < f →
    psb f (escList cs ++ '"' :: rest) = some (cs, rest)
  | [], rest, f, h => by
    obtain ⟨f2, rfl⟩ : ∃ f2, f = f2 + 1 := ⟨f - 1, by omega⟩
    rfl
  | c :: cs, rest, f, h => by
    obtain ⟨f2, rfl⟩ : ∃ f2, f = f2 + 1 := ⟨f - 1, by omega⟩
    have ih := psb_escList cs rest f2 (by simp at h; omega)
    by_cases h1 : c = '"'
    · subst h1
      show (psb f2 (escList cs ++ '"' :: rest)).map (fun p => ('"' :: p.1, p.2)) = _
      rw [ih]
      rfl
    · by_cases h2 : c = '\\'
      · subst h2
        show (psb f2 (escList cs ++ '"' :: rest)).map (fun p => ('\\' :: p.1, p.2)) = _
        rw [ih]
        rfl
      · by_cases h8 : c.toNat < 32
        · have hc : c = Char.ofNat c.toNat := (Char.ofNat_toNat c).symm
          rw [hc]
          have ht : c.toNat < 32 := h8
          generalize c.toNat = t at ht
          interval_cases t <;>
            · show (psb f2 (escList cs ++ '"' :: rest)).map _ = _
              rw [ih]
              rfl
        · rw [show escList (c :: cs) = escChar c ++ escList cs from rfl,
            show escChar c = [c] by
              unfold escChar
              rw [if_neg h1, if_neg h2, if_neg (by omega), if_neg (by omega),
                if_neg (by omega), if_neg (by omega), if_neg (by omega), if_neg h8]]
          rw [List.cons_append, List.nil_append]
          simp only [psb]
          rw [if_neg h1, if_neg h2, if_neg h8, List.append_eq, ih]
          rfl

theorem skipWs_quote (t : List Char) : skipWs ('"' :: t) = '"' :: t := rfl

theorem skipWs_colon (t : List Char) : skipWs (':' :: t) = ':' :: t := rfl

theorem skipWs_comma (t : List Char) : skipWs (',' :: t) = ',' :: t := rfl

theorem skipWs_rbrace (t : List Char) : skipWs ('\x7d' :: t) = '\x7d' :: t := rfl

theorem skipWs_nl (t : List Char) : skipWs ('\n' :: t) = skipWs t := rfl

theorem skipWs_sp (t : List Char) : skipWs (' ' :: t) = skipWs t := rfl

/-- Parsing a serialized string value (preceded by the space the serializer
emits after a colon) yields the original string. -/
theorem parseVal_str (f : Nat) (cs rest : List Char) :
    parseVal (f + 1) (' ' :: '"' :: (escList cs ++ '"' :: rest)) =
      some (.str (String.mk cs), rest) := by
  have hb : cs.length < (escList cs ++ '"' :: rest).length + 1 := by
    have := escList_len cs
    simp only [List.length_append, List.length_cons]
    omega
  show (psb ((escList cs ++ '"' :: rest).length + 1)
      (escList cs ++ '"' :: rest)).map (fun p => (Json.str (String.mk p.1), p.2)) = _
  rw [psb_escList cs rest _ hb]
  rfl

/-- Parsing the last serialized member of the wallet object, up to the
closing brace on its own line. -/
theorem mems_last (f : Nat) (k v rest : List Char) :
    parseMems (f + 1 + 1)
        ('"' :: (escList k ++ '"' :: ':' :: ' ' :: '"' ::
          (escList v ++ '"' :: '\n' :: '\x7d' :: rest)))
      = some (.obj [(String.mk k, .str (String.mk v))], rest) := by
  have hk := psb_escList k
    (':' :: ' ' :: '"' :: (escList v ++ '"' :: '\n' :: '\x7d' :: rest))
    ((escList k ++ '"' :: ':' :: ' ' :: '"' ::
      (escList v ++ '"' :: '\n' :: '\x7d' :: rest)).length + 1)
    (by
      have := escList_len k
      simp only [List.length_append, List.length_cons]
      omega)
  have hv := parseVal_str f v ('\n' :: '\x7d' :: rest)
  simp only [parseMems, skipWs_quote, hk, skipWs_colon, hv, skipWs_nl, skipWs_rbrace]

/-- Parsing one non-final serialized member of the wallet object: consumes
the member, the comma, and the following line's indent, then continues with
the remaining members. -/
theorem mems_cons (f : Nat) (k v tail : List Char) (ms : List (String × Json))
    (rest : List Char)
    (h : parseMems (f + 1) ('\n' :: ' ' :: ' ' :: tail) = some (.obj ms, rest)) :
    parseMems (f + 1 + 1)
        ('"' :: (escList k ++ '"' :: ':' :: ' ' :: '"' ::
          (escList v ++ '"' :: ',' :: '\n' :: ' ' :: ' ' :: tail)))
      = some (.obj ((String.mk k, .str (String.mk v)) :: ms), rest) := by
  have hk := psb_escList k
    (':' :: ' ' :: '"' :: (escList v ++ '"' :: ',' :: '\n' :: ' ' :: ' ' :: tail))
    ((escList k ++ '"' :: ':' :: ' ' :: '"' ::
      (escList v ++ '"' :: ',' :: '\n' :: ' ' :: ' ' :: tail)).length + 1)
    (by
      have := escList_len k
      simp only [List.length_append, List.length_cons]
      omega)
  have hv := parseVal_str f v (',' :: '\n' :: ' ' :: ' ' :: tail)
  simp only [parseMems, skipWs_quote, hk, skipWs_colon, hv, skipWs_comma, skipWs_nl,
    skipWs_sp] at h ⊢
  rw [h]

theorem parseMems_absorb (g : Nat) (cs : List Char) :
    parseMems (g + 1) ('\n' :: ' ' :: ' ' :: cs) = parseMems (g + 1) cs := rfl

theorem skipWs_lbrace (t : List Char) : skipWs ('\x7b' :: t) = '\x7b' :: t := rfl

/-- Character data of the serialized wallet file, in parser-ready form. -/
theorem serializeWallet_data (w1 w2 w3 w4 w5 : String) :
    (serializeWallet ⟨w1, w2, w3, w4, w5⟩ ++ "\n").data =
      '\x7b' :: '\n' :: ' ' :: ' ' :: '"' :: 'w' :: 'a' :: 'l' :: 'l' :: 'e' :: 't' :: 'I' :: 'd' :: '"' :: ':' :: ' ' :: '"' :: (escList w1.data ++ '"' :: ',' :: '\n' :: ' ' :: ' ' :: '"' :: 'a' :: 'd' :: 'd' :: 'r' :: 'e' :: 's' :: 's' :: '"' :: ':' :: ' ' :: '"' :: (escList w2.data ++ '"' :: ',' :: '\n' :: ' ' :: ' ' :: '"' :: 'a' :: 'u' :: 't' :: 'h' :: 'P' :: 'r' :: 'i' :: 'v' :: 'a' :: 't' :: 'e' :: 'K' :: 'e' :: 'y' :: '"' :: ':' :: ' ' :: '"' :: (escList w3.data ++ '"' :: ',' :: '\n' :: ' ' :: ' ' :: '"' :: 'a' :: 'u' :: 't' :: 'h' :: 'P' :: 'u' :: 'b' :: 'l' :: 'i' :: 'c' :: 'K' :: 'e' :: 'y' :: '"' :: ':' :: ' ' :: '"' :: (escList w4.data ++ '"' :: ',' :: '\n' :: ' ' :: ' ' :: '"' :: 'c' :: 'r' :: 'e' :: 'a' :: 't' :: 'e' :: 'd' :: 'A' :: 't' :: '"' :: ':' :: ' ' :: '"' :: (escList w5.data ++ '"' :: '\n' :: '\x7d' :: '\n' :: []))))) := by
  simp only [serializeWallet, jsonQuote, String.data_append, List.append_assoc,
    List.cons_append, List.nil_append]

theorem strMkData (s : String) : String.mk s.data = s := rfl

set_option maxHeartbeats 1000000 in
/-- Parsing the serialized wallet file recovers exactly the wallet's JSON
object (a fuel margin of seven levels suffices). -/
theorem serializeWallet_parse (f : Nat) (w : PersistedWallet) :
    parseVal (f + 1 + 1 + 1 + 1 + 1 + 1 + 1) ((serializeWallet w ++ "\n").data)
      = some (walletToJson w, ['\n']) := by
  obtain ⟨w1, w2, w3, w4, w5⟩ := w
  have ek1 : escList ("walletId".data) = 'w' :: 'a' :: 'l' :: 'l' :: 'e' :: 't' :: 'I' :: 'd' :: [] := rfl
  have km1 : String.mk ("walletId".data) = "walletId" := rfl
  have ek2 : escList ("address".data) = 'a' :: 'd' :: 'd' :: 'r' :: 'e' :: 's' :: 's' :: [] := rfl
  have km2 : String.mk ("address".data) = "address" := rfl
  have ek3 : escList ("authPrivateKey".data) = 'a' :: 'u' :: 't' :: 'h' :: 'P' :: 'r' :: 'i' :: 'v' :: 'a' :: 't' :: 'e' :: 'K' :: 'e' :: 'y' :: [] := rfl
  have km3 : String.mk ("authPrivateKey".data) = "authPrivateKey" := rfl
  have ek4 : escList ("authPublicKey".data) = 'a' :: 'u' :: 't' :: 'h' :: 'P' :: 'u' :: 'b' :: 'l' :: 'i' :: 'c' :: 'K' :: 'e' :: 'y' :: [] := rfl
  have km4 : String.mk ("authPublicKey".data) = "authPublicKey" := rfl
  have ek5 : escList ("createdAt".data) = 'c' :: 'r' :: 'e' :: 'a' :: 't' :: 'e' :: 'd' :: 'A' :: 't' :: [] := rfl
  have km5 : String.mk ("createdAt".data) = "createdAt" := rfl
  have m5 := mems_last f ("createdAt".data) w5.data ['\n']
  simp only [ek5, km5, strMkData, List.cons_append, List.nil_append] at m5
  have h4 := (parseMems_absorb (f + 1) ('"' :: 'c' :: 'r' :: 'e' :: 'a' :: 't' :: 'e' :: 'd' :: 'A' :: 't' :: '"' :: ':' :: ' ' :: '"' :: (escList w5.data ++ '"' :: '\n' :: '\x7d' :: '\n' :: []))).trans m5
  have m4 := mems_cons (f + 1) ("authPublicKey".data) w4.data ('"' :: 'c' :: 'r' :: 'e' :: 'a' :: 't' :: 'e' :: 'd' :: 'A' :: 't' :: '"' :: ':' :: ' ' :: '"' :: (escList w5.data ++ '"' :: '\n' :: '\x7d' :: '\n' :: [])) _ _ h4
  simp only [ek4, km4, strMkData, List.cons_append, List.nil_append] at m4
  have h3 := (parseMems_absorb (f + 1 + 1) ('"' :: 'a' :: 'u' :: 't' :: 'h' :: 'P' :: 'u' :: 'b' :: 'l' :: 'i' :: 'c' :: 'K' :: 'e' :: 'y' :: '"' :: ':' :: ' ' :: '"' :: (escList w4.data ++ '"' :: ',' :: '\n' :: ' ' :: ' ' :: '"' :: 'c' :: 'r' :: 'e' :: 'a' :: 't' :: 'e' :: 'd' :: 'A' :: 't' :: '"' :: ':' :: ' ' :: '"' :: (escList w5.data ++ '"' :: '\n' :: '\x7d' :: '\n' :: [])))).trans m4
  have m3 := mems_cons (f + 1 + 1) ("authPrivateKey".data) w3.data ('"' :: 'a' :: 'u' :: 't' :: 'h' :: 'P' :: 'u' :: 'b' :: 'l' :: 'i' :: 'c' :: 'K' :: 'e' :: 'y' :: '"' :: ':' :: ' ' :: '"' :: (escList w4.data ++ '"' :: ',' :: '\n' :: ' ' :: ' ' :: '"' :: 'c' :: 'r' :: 'e' :: 'a' :: 't' :: 'e' :: 'd' :: 'A' :: 't' :: '"' :: ':' :: ' ' :: '"' :: (escList w5.data ++ '"' :: '\n' :: '\x7d' :: '\n' :: []))) _ _ h3
  simp only [ek3, km3, strMkData, List.cons_append, List.nil_append] at m3
  have h2 := (parseMems_absorb (f + 1 + 1 + 1) ('"' :: 'a' :: 'u' :: 't' :: 'h' :: 'P' :: 'r' :: 'i' :: 'v' :: 'a' :: 't' :: 'e' :: 'K' :: 'e' :: 'y' :: '"' :: ':' :: ' ' :: '"' :: (escList w3.data ++ '"' :: ',' :: '\n' :: ' ' :: ' ' :: '"' :: 'a' :: 'u' :: 't' :: 'h' :: 'P' :: 'u' :: 'b' :: 'l' :: 'i' :: 'c' :: 'K' :: 'e' :: 'y' :: '"' :: ':' :: ' ' :: '"' :: (escList w4.data ++ '"' :: ',' :: '\n' :: ' ' :: ' ' :: '"' :: 'c' :: 'r' :: 'e' :: 'a' :: 't' :: 'e' :: 'd' :: 'A' :: 't' :: '"' :: ':' :: ' ' :: '"' :: (escList w5.data ++ '"' :: '\n' :: '\x7d' :: '\n' :: []))))).trans m3
  have m2 := mems_cons (f + 1 + 1 + 1) ("address".data) w2.data ('"' :: 'a' :: 'u' :: 't' :: 'h' :: 'P' :: 'r' :: 'i' :: 'v' :: 'a' :: 't' :: 'e' :: 'K' :: 'e' :: 'y' :: '"' :: ':' :: ' ' :: '"' :: (escList w3.data ++ '"' :: ',' :: '\n' :: ' ' :: ' ' :: '"' :: 'a' :: 'u' :: 't' :: 'h' :: 'P' :: 'u' :: 'b' :: 'l' :: 'i' :: 'c' :: 'K' :: 'e' :: 'y' :: '"' :: ':' :: ' ' :: '"' :: (escList w4.data ++ '"' :: ',' :: '\n' :: ' ' :: ' ' :: '"' :: 'c' :: 'r' :: 'e' :: 'a' :: 't' :: 'e' :: 'd' :: 'A' :: 't' :: '"' :: ':' :: ' ' :: '"' :: (escList w5.data ++ '"' :: '\n' :: '\x7d' :: '\n' :: [])))) _ _ h2
  simp only [ek2, km2, strMkData, List.cons_append, List.nil_append] at m2
  have h1 := (parseMems_absorb (f + 1 + 1 + 1 + 1) ('"' :: 'a' :: 'd' :: 'd' :: 'r' :: 'e' :: 's' :: 's' :: '"' :: ':' :: ' ' :: '"' :: (escList w2.data ++ '"' :: ',' :: '\n' :: ' ' :: ' ' :: '"' :: 'a' :: 'u' :: 't' :: 'h' :: 'P' :: 'r' :: 'i' :: 'v' :: 'a' :: 't' :: 'e' :: 'K' :: 'e' :: 'y' :: '"' :: ':' :: ' ' :: '"' :: (escList w3.data ++ '"' :: ',' :: '\n' :: ' ' :: ' ' :: '"' :: 'a' :: 'u' :: 't' :: 'h' :: 'P' :: 'u' :: 'b' :: 'l' :: 'i' :: 'c' :: 'K' :: 'e' :: 'y' :: '"' :: ':' :: ' ' :: '"' :: (escList w4.data ++ '"' :: ',' :: '\n' :: ' ' :: ' ' :: '"' :: 'c' :: 'r' :: 'e' :: 'a' :: 't' :: 'e' :: 'd' :: 'A' :: 't' :: '"' :: ':' :: ' ' :: '"' :: (escList w5.data ++ '"' :: '\n' :: '\x7d' :: '\n' :: [])))))).trans m2
  have m1 := mems_cons (f + 1 + 1 + 1 + 1) ("walletId".data) w1.data ('"' :: 'a' :: 'd' :: 'd' :: 'r' :: 'e' :: 's' :: 's' :: '"' :: ':' :: ' ' :: '"' :: (escList w2.data ++ '"' :: ',' :: '\n' :: ' ' :: ' ' :: '"' :: 'a' :: 'u' :: 't' :: 'h' :: 'P' :: 'r' :: 'i' :: 'v' :: 'a' :: 't' :: 'e' :: 'K' :: 'e' :: 'y' :: '"' :: ':' :: ' ' :: '"' :: (escList w3.data ++ '"' :: ',' :: '\n' :: ' ' :: ' ' :: '"' :: 'a' :: 'u' :: 't' :: 'h' :: 'P' :: 'u' :: 'b' :: 'l' :: 'i' :: 'c' :: 'K' :: 'e' :: 'y' :: '"' :: ':' :: ' ' :: '"' :: (escList w4.data ++ '"' :: ',' :: '\n' :: ' ' :: ' ' :: '"' :: 'c' :: 'r' :: 'e' :: 'a' :: 't' :: 'e' :: 'd' :: 'A' :: 't' :: '"' :: ':' :: ' ' :: '"' :: (escList w5.data ++ '"' :: '\n' :: '\x7d' :: '\n' :: []))))) _ _ h1
  simp only [ek1, km1, strMkData, List.cons_append, List.nil_append] at m1
  rw [serializeWallet_data]
  simp only [parseVal, skipWs_lbrace, skipWs_nl, skipWs_sp, skipWs_quote]
  rw [parseMems_absorb (f + 1 + 1 + 1 + 1 + 1) ('"' :: 'w' :: 'a' :: 'l' :: 'l' :: 'e' :: 't' :: 'I' :: 'd' :: '"' :: ':' :: ' ' :: '"' :: (escList w1.data ++ '"' :: ',' :: '\n' :: ' ' :: ' ' :: '"' :: 'a' :: 'd' :: 'd' :: 'r' :: 'e' :: 's' :: 's' :: '"' :: ':' :: ' ' :: '"' :: (escList w2.data ++ '"' :: ',' :: '\n' :: ' ' :: ' ' :: '"' :: 'a' :: 'u' :: 't' :: 'h' :: 'P' :: 'r' :: 'i' :: 'v' :: 'a' :: 't' :: 'e' :: 'K' :: 'e' :: 'y' :: '"' :: ':' :: ' ' :: '"' :: (escList w3.data ++ '"' :: ',' :: '\n' :: ' ' :: ' ' :: '"' :: 'a' :: 'u' :: 't' :: 'h' :: 'P' :: 'u' :: 'b' :: 'l' :: 'i' :: 'c' :: 'K' :: 'e' :: 'y' :: '"' :: ':' :: ' ' :: '"' :: (escList w4.data ++ '"' :: ',' :: '\n' :: ' ' :: ' ' :: '"' :: 'c' :: 'r' :: 'e' :: 'a' :: 't' :: 'e' :: 'd' :: 'A' :: 't' :: '"' :: ':' :: ' ' :: '"' :: (escList w5.data ++ '"' :: '\n' :: '\x7d' :: '\n' :: []))))))]
  rw [m1]
  simp only [walletToJson]
  rfl

/-- Round trip of the credential file serialization: `JSON.parse` of the
saved file content yields exactly the wallet's JSON object. -/
theorem parseJson_serializeWallet (w : PersistedWallet) :
    parseJson (serializeWallet w ++ "\n") = some (walletToJson w) := by
  have h16 : ("\x7b\n  \"walletId\": ").length = 16 := rfl
  have hlen : 6 ≤ (serializeWallet w ++ "\n").length := by
    simp only [serializeWallet, String.length_append]
    omega
  simp only [parseJson]
  rw [show (serializeWallet w ++ "\n").length + 1
      = ((serializeWallet w ++ "\n").length - 6) + 1 + 1 + 1 + 1 + 1 + 1 + 1 from by omega]
  rw [serializeWallet_parse]
  rfl

/-- Empty file system fixture. -/
def fsEmpty : FS := fun _ => none

/-- Concrete wallet record fixture. -/
def wallet0 : PersistedWallet :=
  ⟨"wid-1", "0xAbC", "privKeyB64", "pubKeyB64", "2024-01-01T00:00:00.000Z"⟩

/-- Custody stub fixture whose creation call succeeds with `wallet0`'s id
and address. -/
def stub0 : PrivyStub :=
  ⟨"pubKeyB64", "privKeyB64", .ok ("wid-1", "0xAbC"), "2024-01-01T00:00:00.000Z"⟩

/-- Custody stub fixture whose creation call fails. -/
def stubFail : PrivyStub :=
  ⟨"pubKeyB64", "privKeyB64", .error "custody service unreachable", "2024-01-01T00:00:00.000Z"⟩

/-- Router configuration fixture. -/
def cfg0 : RouterCfg := ⟨"0xAbC", 11155111, "https://rpc.example"⟩

/-- Deterministic signer stub fixture. -/
def wstub0 : WalletStub := ⟨fun _ => .ok (.str "0xsig")⟩

/-- C4: `resolveChain` is a pure lookup: each of the three supported ids
maps to its network entry, and every other id fails with an unsupported
message that names the requested id and enumerates exactly the supported
ids (in JS key enumeration order 1, 8453, 11155111). -/
theorem c4_resolveChain_spec :
    (resolveChain 1 = .ok mainnet ∧ resolveChain 11155111 = .ok sepolia ∧
      resolveChain 8453 = .ok base)
    ∧ chainMapKeys = "1, 8453, 11155111"
    ∧ (∀ chainId : Nat, chainId ≠ 1 → chainId ≠ 11155111 → chainId ≠ 8453 →
        resolveChain chainId =
          .error ("Unsupported chain ID: " ++ toString chainId ++ ". Supported: " ++
            chainMapKeys)) := by
  refine ⟨⟨rfl, rfl, rfl⟩, rfl, ?_⟩
  intro chainId h1 h2 h3
  unfold resolveChain CHAIN_MAP
  rw [if_neg h1, if_neg h2, if_neg h3]

/-- Witness for C4 at the unsupported id 2. -/
theorem c4_witness :
    resolveChain 2 = .error "Unsupported chain ID: 2. Supported: 1, 8453, 11155111" :=
  (c4_resolveChain_spec.2.2 2 (by decide) (by decide) (by decide)).trans rfl

/-- Lowercase hexadecimal digit test. -/
def isLowerHex (c : Char) : Bool := isDigitChar c || (97 ≤ c.toNat && c.toNat ≤ 102)

theorem hexDigitChar_lower : ∀ m, m < 16 → isLowerHex (hexDigitChar m) = true := by decide

theorem natToHexCore_lower : ∀ (f n : Nat), (natToHexCore f n).all isLowerHex = true := by
  intro f
  induction f with
  | zero => intro n; rfl
  | succ f ih =>
    intro n
    unfold natToHexCore
    by_cases h : n < 16
    · rw [if_pos h]
      simp [hexDigitChar_lower n h]
    · rw [if_neg h]
      simp only [List.all_append, ih (n / 16)]
      simp [hexDigitChar_lower (n % 16) (by omega)]

/-- C3: `eth_chainId` answers from configuration alone, no HTTP POST and no
signer call, as the 0x-prefixed lowercase hexadecimal rendering of the
configured chain id; concretely 11155111 renders as 0xaa36a7. -/
theorem c3_chainId_spec :
    (∀ (cfg : RouterCfg) (chain : Chain) (stub : WalletStub) (tr : Transport)
      (params : Option Json),
      request cfg chain stub tr "eth_chainId" params =
        (.ok (some (.str ("0x" ++ natToHex cfg.chainId))), [], []))
    ∧ natToHex 11155111 = "aa36a7"
    ∧ (∀ n : Nat, ((natToHex n).data.all isLowerHex) = true) := by
  refine ⟨?_, rfl, ?_⟩
  · intro cfg chain stub tr params
    unfold request
    rw [if_neg (by decide), if_pos rfl]
  · intro n
    show (natToHexCore (n + 1) n).all isLowerHex = true
    exact natToHexCore_lower (n + 1) n

/-- Saving then loading on the same path yields the wallet's JSON object. -/
theorem load_save_aux (fs : FS) (w : PersistedWallet) (p : Option String) :
    loadWallet (saveWallet fs w p) p = .ok (walletToJson w) := by
  unfold loadWallet saveWallet fsWrite
  rw [if_pos rfl]
  dsimp only
  rw [parseJson_serializeWallet]

/-- C5: for every syntactically valid Credential Record and every path,
`saveWallet` followed by `loadWallet` on that path returns a record deeply
equal to the one saved: the loaded JSON value is exactly the saved record's
object, and that object determines the record. -/
theorem c5_save_load_roundtrip :
    (∀ (fs : FS) (w : PersistedWallet) (p : Option String),
      loadWallet (saveWallet fs w p) p = .ok (walletToJson w))
    ∧ (∀ w w2 : PersistedWallet, walletToJson w = walletToJson w2 → w = w2) := by
  constructor
  · exact load_save_aux
  · intro w w2 h
    cases w
    cases w2
    simp only [walletToJson, Json.obj.injEq, List.cons.injEq, Prod.mk.injEq,
      Json.str.injEq, and_true, true_and] at h
    simp_all

/-- Witness for C5 at a concrete record, file system and path. -/
theorem c5_witness :
    loadWallet (saveWallet fsEmpty wallet0 (some "w.json")) (some "w.json") =
      .ok (walletToJson wallet0)
    ∧ wallet0 = wallet0 :=
  ⟨c5_save_load_roundtrip.1 fsEmpty wallet0 (some "w.json"),
    c5_save_load_roundtrip.2 wallet0 wallet0 rfl⟩

/-- C1: `getOrCreateWallet` on a hit (the credential file loads to a truthy
record value) returns the loaded value as-is, leaves the file system
untouched and never invokes `createWallet`; on a miss (no file at the
resolved path) it invokes `createWallet` exactly once, saves the result,
returns it, and afterwards the file holds content identical to the returned
record. -/
theorem c1_getOrCreateWallet_spec :
    (∀ (stub : PrivyStub) (fs : FS) (p : Option String) (j : Json),
      loadWallet fs p = .ok j → isTruthy j = true →
      getOrCreateWallet stub fs p = (.ok j, fs, 0))
    ∧ (∀ (stub : PrivyStub) (fs : FS) (p : Option String) (w : PersistedWallet),
      fs (resolvePath p) = none → createWallet stub = .ok w →
      getOrCreateWallet stub fs p = (.ok (walletToJson w), saveWallet fs w p, 1)
      ∧ (saveWallet fs w p) (resolvePath p) = some (serializeWallet w ++ "\n")
      ∧ loadWallet (saveWallet fs w p) p = .ok (walletToJson w)) := by
  constructor
  · intro stub fs p j hl ht
    unfold getOrCreateWallet
    rw [hl]
    dsimp only
    rw [if_pos ht]
  · intro stub fs p w hf hc
    have hl : loadWallet fs p = .ok .null := by unfold loadWallet; rw [hf]
    refine ⟨?_, ?_, load_save_aux fs w p⟩
    · unfold getOrCreateWallet
      rw [hl]
      dsimp only
      rw [if_neg (by simp [isTruthy]), hc]
    · unfold saveWallet fsWrite
      rw [if_pos rfl]

/-- File system fixture holding a truthy JSON object at the default path. -/
def fs1 : FS := fsWrite fsEmpty ".privy-wallet.json" "\x7b\"a\":\"b\"\x7d"

/-- Witness for C1: a hit on `fs1` and a miss on the empty file system. -/
theorem c1_witness :
    getOrCreateWallet stub0 fs1 none = (.ok (.obj [("a", .str "b")]), fs1, 0)
    ∧ getOrCreateWallet stub0 fsEmpty none =
        (.ok (walletToJson wallet0), saveWallet fsEmpty wallet0 none, 1) :=
  ⟨c1_getOrCreateWallet_spec.1 stub0 fs1 none (.obj [("a", .str "b")]) rfl rfl,
    (c1_getOrCreateWallet_spec.2 stub0 fsEmpty none wallet0 rfl rfl).1⟩

/-- C9: when the custody service's creation call fails, the error propagates
from `createWallet` and from `getOrCreateWallet` on a miss, and nothing is
persisted: the file system is returned unchanged. -/
theorem c9_createFailure_spec :
    ∀ (stub : PrivyStub) (e : String), stub.createResult = .error e →
      createWallet stub = .error e
      ∧ (∀ (fs : FS) (p : Option String), fs (resolvePath p) = none →
          getOrCreateWallet stub fs p = (.error e, fs, 1)) := by
  intro stub e he
  constructor
  · unfold createWallet
    rw [he]
  · intro fs p hf
    have hl : loadWallet fs p = .ok .null := by unfold loadWallet; rw [hf]
    unfold getOrCreateWallet
    rw [hl]
    dsimp only
    rw [if_neg (by simp [isTruthy])]
    unfold createWallet
    rw [he]

/-- Witness for C9 with the failing custody stub. -/
theorem c9_witness :
    createWallet stubFail = .error "custody service unreachable"
    ∧ getOrCreateWallet stubFail fsEmpty none =
        (.error "custody service unreachable", fsEmpty, 1) :=
  ⟨(c9_createFailure_spec stubFail _ rfl).1,
    (c9_createFailure_spec stubFail _ rfl).2 fsEmpty none rfl⟩

/-- C10: a credential file whose content parses to a falsy JSON value (for
`getOrCreateWallet` treats it as a miss: it invokes the creation path and
overwrites the file with the newly created record. -/
theorem c10_falsyFile_spec :
    ∀ (stub : PrivyStub) (fs : FS) (p : Option String) (content : String) (j : Json)
      (w : PersistedWallet),
      fs (resolvePath p) = some content → parseJson content = some j →
      isTruthy j = false → createWallet stub = .ok w →
      loadWallet fs p = .ok j
      ∧ getOrCreateWallet stub fs p = (.ok (walletToJson w), saveWallet fs w p, 1)
      ∧ (saveWallet fs w p) (resolvePath p) = some (serializeWallet w ++ "\n") := by
  intro stub fs p content j w hf hp ht hc
  have hl : loadWallet fs p = .ok j := by
    unfold loadWallet
    rw [hf]
    dsimp only
    rw [hp]
  refine ⟨hl, ?_, ?_⟩
  · unfold getOrCreateWallet
    rw [hl]
    dsimp only
    rw [if_neg (by simp [ht]), hc]
  · unfold saveWallet fsWrite
    rw [if_pos rfl]

/-- File system fixture holding the literal null at the default path. -/
def fsNull : FS := fsWrite fsEmpty ".privy-wallet.json" "null"

/-- Witness for C10 on a file containing the literal null. -/
theorem c10_witness :
    loadWallet fsNull none = .ok Json.null
    ∧ getOrCreateWallet stub0 fsNull none =
        (.ok (walletToJson wallet0), saveWallet fsNull wallet0 none, 1) :=
  ⟨(c10_falsyFile_spec stub0 fsNull none "null" Json.null wallet0 rfl rfl rfl rfl).1,
    (c10_falsyFile_spec stub0 fsNull none "null" Json.null wallet0 rfl rfl rfl rfl).2.1⟩

/-- Counterexample for C6: a credential file exists at the resolved path
(holding the literal null), yet `loadWallet` returns the absent value
rather than failing with a corrupt-credential condition, even though the
content is not valid JSON of the Credential Record structure. -/
theorem c6_counterexample :
    fsNull (resolvePath none) = some "null" ∧ loadWallet fsNull none = .ok Json.null :=
  ⟨rfl, rfl⟩

/-- C6 (amended): `loadWallet` returns null when no file exists at the
resolved path; when a file exists it returns whatever JSON value the content
parses to — null included, with no validation of the record structure — and
fails exactly when the content is not syntactically valid JSON. -/
theorem c6_load_amended :
    ∀ (fs : FS) (p : Option String),
      (fs (resolvePath p) = none → loadWallet fs p = .ok .null)
      ∧ (∀ (content : String) (j : Json), fs (resolvePath p) = some content →
          parseJson content = some j → loadWallet fs p = .ok j)
      ∧ (∀ content : String, fs (resolvePath p) = some content → parseJson content = none →
          loadWallet fs p = .error "SyntaxError: Unexpected token in JSON") := by
  intro fs p
  refine ⟨?_, ?_, ?_⟩
  · intro hf
    unfold loadWallet
    rw [hf]
  · intro content j hf hp
    unfold loadWallet
    rw [hf]
    dsimp only
    rw [hp]
  · intro content hf hp
    unfold loadWallet
    rw [hf]
    dsimp only
    rw [hp]

/-- File system fixture holding unparseable content at the default path. -/
def fsBad : FS := fsWrite fsEmpty ".privy-wallet.json" "nope"

/-- Witness for the amended C6 on all three outcomes. -/
theorem c6_witness :
    loadWallet fsEmpty none = .ok .null
    ∧ loadWallet fsNull none = .ok Json.null
    ∧ loadWallet fsBad none = .error "SyntaxError: Unexpected token in JSON" :=
  ⟨(c6_load_amended fsEmpty none).1 rfl,
    (c6_load_amended fsNull none).2.1 "null" Json.null rfl rfl,
    (c6_load_amended fsBad none).2.2 "nope" rfl rfl⟩

/-- The proxy's observable I/O: exactly one POST of the JSON-RPC body to the
given URL, and no signer invocation, whatever the response. -/
theorem proxy_trace (tr : Transport) (u m : String) (p : Option Json) :
    (proxyToRpc tr u m p).2.1 = [⟨u, rpcBody m p⟩] ∧ (proxyToRpc tr u m p).2.2 = [] := by
  unfold proxyToRpc
  dsimp only
  cases htr : tr u (rpcBody m p) <;> dsimp only
  case null => exact ⟨rfl, rfl⟩
  case bool b => exact ⟨rfl, rfl⟩
  case num q => exact ⟨rfl, rfl⟩
  case str s => exact ⟨rfl, rfl⟩
  case arr xs => exact ⟨rfl, rfl⟩
  case obj kvs =>
    cases hj : jget (.obj kvs) "error" <;> dsimp only
    case none => exact ⟨rfl, rfl⟩
    case some e =>
      by_cases hte : isTruthy e = true
      · rw [if_pos hte]
        exact ⟨rfl, rfl⟩
      · rw [if_neg hte]
        exact ⟨rfl, rfl⟩

/-- Textual shape of the JSON-RPC request body. -/
theorem rpcBody_shape (method : String) (params : Option Json) :
    rpcBody method params =
      "\x7b\"jsonrpc\":\"2.0\",\"id\":1,\"method\":" ++ jsonQuote method ++ ",\"params\":"
        ++ stringifyC (paramsOrEmpty params) ++ "\x7d" := by
  have hb : ("\x7b\"jsonrpc\":\"2.0\",\"id\":1,\"method\":" : String)
      = "\x7b" ++ "\"jsonrpc\"" ++ ":" ++ "\"2.0\"" ++ "," ++ "\"id\"" ++ ":" ++ "1" ++ ","
        ++ "\"method\"" ++ ":" := rfl
  have hp2 : (",\"params\":" : String) = "," ++ "\"params\"" ++ ":" := rfl
  have hq1 : jsonQuote "jsonrpc" = "\"jsonrpc\"" := rfl
  have hq2 : jsonQuote "2.0" = "\"2.0\"" := rfl
  have hq3 : jsonQuote "id" = "\"id\"" := rfl
  have hq4 : jsonQuote "method" = "\"method\"" := rfl
  have hq5 : jsonQuote "params" = "\"params\"" := rfl
  have hnum : numToString 1 = "1" := by with_unfolding_all rfl
  unfold rpcBody
  simp only [stringifyC, stringifyFields, hq1, hq2, hq3, hq4, hq5, hnum, hb, hp2,
    String.append_assoc]

/-- C2 (amended): every method outside the six enumerated names is proxied:
exactly one HTTP POST is issued to the configured RPC URL with the JSON-RPC
2.0 body (id 1, params defaulting to the empty array), no signer call is
made; a response whose error field holds a truthy value fails with a message
naming the method and the error's message text, and a response without a
truthy error field (absent, or present but falsy such as null) yields the
response's result field. -/
theorem c2_proxy_spec :
    ∀ (cfg : RouterCfg) (chain : Chain) (stub : WalletStub) (tr : Transport)
      (method : String) (params : Option Json),
      method ≠ "eth_accounts" → method ≠ "eth_requestAccounts" → method ≠ "eth_chainId" →
      method ≠ "eth_sendTransaction" → method ≠ "personal_sign" →
      method ≠ "eth_signTypedData_v4" →
      request cfg chain stub tr method params = proxyToRpc tr cfg.rpcUrl method params
      ∧ (request cfg chain stub tr method params).2.1 = [⟨cfg.rpcUrl, rpcBody method params⟩]
      ∧ (request cfg chain stub tr method params).2.2 = []
      ∧ rpcBody method params =
          "\x7b\"jsonrpc\":\"2.0\",\"id\":1,\"method\":" ++ jsonQuote method ++ ",\"params\":"
            ++ stringifyC (paramsOrEmpty params) ++ "\x7d"
      ∧ (∀ e : Json, jget (tr cfg.rpcUrl (rpcBody method params)) "error" = some e →
          isTruthy e = true →
          (request cfg chain stub tr method params).1 =
            .error ("RPC error (" ++ method ++ "): " ++ jsDisplay (jget e "message")))
      ∧ (∀ e : Json, jget (tr cfg.rpcUrl (rpcBody method params)) "error" = some e →
          isTruthy e = false →
          (request cfg chain stub tr method params).1 =
            .ok (jget (tr cfg.rpcUrl (rpcBody method params)) "result"))
      ∧ (tr cfg.rpcUrl (rpcBody method params) ≠ .null →
          jget (tr cfg.rpcUrl (rpcBody method params)) "error" = none →
          (request cfg chain stub tr method params).1 =
            .ok (jget (tr cfg.rpcUrl (rpcBody method params)) "result")) := by
  intro cfg chain stub tr method params h1 h2 h3 h4 h5 h6
  have hreq : request cfg chain stub tr method params = proxyToRpc tr cfg.rpcUrl method params := by
    unfold request
    rw [if_neg (by simp [h1, h2]), if_neg h3, if_neg h4, if_neg h5, if_neg h6]
  refine ⟨hreq, ?_, ?_, rpcBody_shape method params, ?_, ?_, ?_⟩
  · rw [hreq]
    exact (proxy_trace tr cfg.rpcUrl method params).1
  · rw [hreq]
    exact (proxy_trace tr cfg.rpcUrl method params).2
  · intro e he hte
    rw [hreq]
    unfold proxyToRpc
    dsimp only
    cases htr : tr cfg.rpcUrl (rpcBody method params) <;> rw [htr] at he <;> dsimp only
    case null => simp [jget] at he
    case bool b => simp [jget] at he
    case num q => simp [jget] at he
    case str s2 => simp [jget] at he
    case arr xs => simp [jget] at he
    case obj kvs =>
      rw [he]
      dsimp only
      rw [if_pos hte]
  · intro e he hte
    rw [hreq]
    unfold proxyToRpc
    dsimp only
    cases htr : tr cfg.rpcUrl (rpcBody method params) <;> rw [htr] at he <;> dsimp only
    case null => simp [jget] at he
    case bool b => simp [jget] at he
    case num q => simp [jget] at he
    case str s2 => simp [jget] at he
    case arr xs => simp [jget] at he
    case obj kvs =>
      rw [he]
      dsimp only
      rw [if_neg (by simp [hte])]
  · intro hnn he
    rw [hreq]
    unfold proxyToRpc
    dsimp only
    cases htr : tr cfg.rpcUrl (rpcBody method params) <;> rw [htr] at he hnn <;> dsimp only
    case null => exact absurd rfl hnn
    case bool b => rfl
    case num q => rfl
    case str s2 => rfl
    case arr xs => rfl
    case obj kvs =>
      rw [he]

/-- Transport stub answering with both an error field holding null and a
result field. -/
def trErrNull : Transport := fun _ _ => .obj [("error", Json.null), ("result", .num 5)]

/-- Transport stub answering with a result field. -/
def trRes : Transport := fun _ _ => .obj [("result", .str "ok")]

/-- Transport stub answering with a truthy error object. -/
def trErr : Transport := fun _ _ => .obj [("error", .obj [("message", .str "boom")])]

/-- Counterexample for C2 as frozen: the response body contains an `error`
field (holding null), yet the call does not fail — it returns the result
field — because the code only fails on a truthy error value.  The POST count
and exact body are as claimed. -/
theorem c2_counterexample :
    jget (trErrNull cfg0.rpcUrl
        (rpcBody "unknown_method" (some (.arr [.num 1, .num 2])))) "error" = some Json.null
    ∧ request cfg0 sepolia wstub0 trErrNull "unknown_method" (some (.arr [.num 1, .num 2]))
        = (.ok (some (.num 5)),
           [⟨"https://rpc.example",
             "\x7b\"jsonrpc\":\"2.0\",\"id\":1,\"method\":\"unknown_method\",\"params\":[1,2]\x7d"⟩],
           []) := by
  constructor
  · rfl
  · with_unfolding_all rfl

/-- Witness for the amended C2 at a concrete unknown method, both on a
result response and on a truthy error response. -/
theorem c2_witness :
    request cfg0 sepolia wstub0 trRes "unknown_method" (some (.arr [.num 1, .num 2]))
      = proxyToRpc trRes cfg0.rpcUrl "unknown_method" (some (.arr [.num 1, .num 2]))
    ∧ (request cfg0 sepolia wstub0 trRes "unknown_method" (some (.arr [.num 1, .num 2]))).2.1
      = [⟨cfg0.rpcUrl, rpcBody "unknown_method" (some (.arr [.num 1, .num 2]))⟩]
    ∧ (request cfg0 sepolia wstub0 trErr "unknown_method" (some (.arr [.num 1, .num 2]))).1
      = .error ("RPC error (" ++ "unknown_method" ++ "): "
          ++ jsDisplay (jget (.obj [("message", .str "boom")]) "message")) := by
  refine ⟨?_, ?_, ?_⟩
  · exact (c2_proxy_spec cfg0 sepolia wstub0 trRes "unknown_method" (some (.arr [.num 1, .num 2]))
      (by decide) (by decide) (by decide) (by decide) (by decide) (by decide)).1
  · exact (c2_proxy_spec cfg0 sepolia wstub0 trRes "unknown_method" (some (.arr [.num 1, .num 2]))
      (by decide) (by decide) (by decide) (by decide) (by decide) (by decide)).2.1
  · exact (c2_proxy_spec cfg0 sepolia wstub0 trErr "unknown_method" (some (.arr [.num 1, .num 2]))
      (by decide) (by decide) (by decide) (by decide) (by decide) (by decide)).2.2.2.2.1
      (.obj [("message", .str "boom")]) rfl rfl

/-- C7: for `eth_signTypedData_v4` the router strips the EIP712Domain key
from the payload's types map before delegating, and accepts the primary
type under `primaryType` or `primary_type` interchangeably: two payloads
identical except for which of the two names carries the primary type
produce identical outcomes (hence equal signatures for any fixed stub
signer), the delegated invocation carries the domain, stripped types and
message verbatim, and the delegated types map holds no EIP712Domain key. -/
theorem c7_typedData_spec :
    ∀ (cfg : RouterCfg) (chain : Chain) (stub : WalletStub) (tr : Transport)
      (x d m : Json) (tys : List (String × Json)) (pt : String),
      request cfg chain stub tr "eth_signTypedData_v4"
          (some (.arr [x, .obj [("domain", d), ("types", .obj tys),
            ("primaryType", .str pt), ("message", m)]]))
        = request cfg chain stub tr "eth_signTypedData_v4"
          (some (.arr [x, .obj [("domain", d), ("types", .obj tys),
            ("primary_type", .str pt), ("message", m)]]))
      ∧ request cfg chain stub tr "eth_signTypedData_v4"
          (some (.arr [x, .obj [("domain", d), ("types", .obj tys),
            ("primaryType", .str pt), ("message", m)]]))
        = runSign stub (SignCall.signTypedData (some d) (stripEIP712Domain tys)
            (some (.str pt)) (some m))
      ∧ ∀ e ∈ stripEIP712Domain tys, e.1 ≠ "EIP712Domain" := by
  intro cfg chain stub tr x d m tys pt
  refine ⟨rfl, rfl, ?_⟩
  intro e he
  simp only [stripEIP712Domain, List.mem_filter, decide_eq_true_eq] at he
  exact he.2

/-- Value/gas coercion: a present non-null field runs BigInt, whose outcome
(success or thrown error) passes through. -/
theorem coerceBig_eq (v : Json) (h0 : v ≠ .null) :
    coerceBig (some v) = (jsBigInt v).map some := by
  cases v
  case null => exact absurd rfl h0
  all_goals rfl

/-- Nonce coercion on a present non-null field runs Number. -/
theorem coerceNum_some (n : Json) (h0 : n ≠ .null) :
    coerceNum (some n) = some (jsNumber n) := by
  cases n
  case null => exact absurd rfl h0
  all_goals rfl

/-- Reduction of the send branch once both BigInt coercions succeed. -/
theorem request_send_eq (cfg : RouterCfg) (chain : Chain) (stub : WalletStub)
    (tr : Transport) (kvs : List (String × Json)) (call : SignCall)
    (hb : buildSendCall (some (.obj kvs)) chain = .ok call) :
    request cfg chain stub tr "eth_sendTransaction" (some (.arr [.obj kvs]))
      = runSign stub call := by
  unfold request
  rw [if_neg (by decide), if_neg (by decide), if_pos rfl]
  show (match buildSendCall (some (.obj kvs)) chain with
        | .error e => (.error e, [], [])
        | .ok call2 => runSign stub call2) = runSign stub call
  rw [hb]

/-- Reduction of the send branch when building the invocation throws. -/
theorem request_send_err (cfg : RouterCfg) (chain : Chain) (stub : WalletStub)
    (tr : Transport) (kvs : List (String × Json)) (e : String)
    (hb : buildSendCall (some (.obj kvs)) chain = .error e) :
    request cfg chain stub tr "eth_sendTransaction" (some (.arr [.obj kvs]))
      = (.error e, [], []) := by
  unfold request
  rw [if_neg (by decide), if_neg (by decide), if_pos rfl]
  show (match buildSendCall (some (.obj kvs)) chain with
        | .error e2 => (.error e2, [], [])
        | .ok call2 => runSign stub call2) = (.error e, [], [])
  rw [hb]

/-- C8 (amended): in `eth_sendTransaction` each numeric-ish field is handled
independently of the others.  Whenever the two BigInt coercions succeed —
in particular under any mix of present, null and absent fields — the single
signer invocation carries exactly the coerced values, with to and data
passed through verbatim; a throwing BigInt coercion of value or gas
propagates as the call's error with no signer invocation.  Per field:
absent and null alike coerce to undefined; a present non-null value or gas
goes through BigInt, which yields the exact integer and errors on
non-integral inputs (non-integral numbers raise a RangeError, unparseable
strings such as decimal fractions raise a SyntaxError); a present non-null
nonce goes through JS Number, which need not yield an integer. -/
theorem c8_sendCoercion_spec :
    (∀ (cfg : RouterCfg) (chain : Chain) (stub : WalletStub) (tr : Transport)
      (kvs : List (String × Json)),
      (∀ (oa ob : Option Int),
        coerceBig (jget (.obj kvs) "value") = .ok oa →
        coerceBig (jget (.obj kvs) "gas") = .ok ob →
        request cfg chain stub tr "eth_sendTransaction" (some (.arr [.obj kvs]))
          = runSign stub (.sendTransaction (jget (.obj kvs) "to") (jget (.obj kvs) "data")
              oa ob (coerceNum (jget (.obj kvs) "nonce")) chain))
      ∧ (∀ e : String,
          coerceBig (jget (.obj kvs) "value") = .error e →
          request cfg chain stub tr "eth_sendTransaction" (some (.arr [.obj kvs]))
            = (.error e, [], []))
      ∧ (∀ (oa : Option Int) (e : String),
          coerceBig (jget (.obj kvs) "value") = .ok oa →
          coerceBig (jget (.obj kvs) "gas") = .error e →
          request cfg chain stub tr "eth_sendTransaction" (some (.arr [.obj kvs]))
            = (.error e, [], [])))
    ∧ (coerceBig none = .ok none ∧ coerceBig (some .null) = .ok none
        ∧ ∀ v : Json, v ≠ .null → coerceBig (some v) = (jsBigInt v).map some)
    ∧ (coerceNum none = none ∧ coerceNum (some .null) = none
        ∧ ∀ n : Json, n ≠ .null → coerceNum (some n) = some (jsNumber n))
    ∧ (∀ q : ℚ, q.den ≠ 1 → jsBigInt (.num q) = .error "RangeError: not an integer")
    ∧ (∀ s : String, strToBigInt s = none →
        jsBigInt (.str s) = .error ("SyntaxError: Cannot convert " ++ s ++ " to a BigInt")) := by
  refine ⟨?_, ⟨rfl, rfl, coerceBig_eq⟩, ⟨rfl, rfl, coerceNum_some⟩, ?_, ?_⟩
  · intro cfg chain stub tr kvs
    refine ⟨?_, ?_, ?_⟩
    · intro oa ob hva hgb
      apply request_send_eq
      unfold buildSendCall
      dsimp only
      rw [hva]
      dsimp only
      rw [hgb]
    · intro e hva
      apply request_send_err
      unfold buildSendCall
      dsimp only
      rw [hva]
    · intro oa e hva hgb
      apply request_send_err
      unfold buildSendCall
      dsimp only
      rw [hva]
      dsimp only
      rw [hgb]
  · intro q hq
    simp only [jsBigInt]
    rw [if_neg hq]
  · intro s hs
    simp only [jsBigInt]
    rw [hs]

/-- Transaction fixture whose nonce is the decimal string 1.5. -/
def tx15 : Json := .obj [("to", .str "0x01"), ("value", .str "0x10"),
  ("gas", .str "21000"), ("nonce", .str "1.5")]

/-- Counterexample for C8 as frozen: with nonce given as the decimal string
1.5, the router delegates nonce 1.5 — value and gas are exact integers via
BigInt, but nonce goes through JS Number and is not coerced to an exact
integer representation: the delegated value 3/2 equals no integer. -/
theorem c8_counterexample :
    request cfg0 sepolia wstub0 trRes "eth_sendTransaction" (some (.arr [tx15]))
      = runSign wstub0 (.sendTransaction (some (.str "0x01")) none (some 16) (some 21000)
          (some (JsNum.val (3 / 2))) sepolia)
    ∧ (∀ i : Int, (3 / 2 : ℚ) ≠ (i : ℚ)) := by
  constructor
  · with_unfolding_all rfl
  · intro i h
    have hd := congrArg Rat.den h
    rw [Rat.den_intCast] at hd
    rw [show ((3 : ℚ) / 2).den = 2 from by with_unfolding_all rfl] at hd
    exact absurd hd (by decide)

/-- Witness for the amended C8: mixed presence (value a hex string, gas
absent, nonce null), a throwing value coercion, and a RangeError on a
non-integral number. -/
theorem c8_witness :
    request cfg0 sepolia wstub0 trRes "eth_sendTransaction"
        (some (.arr [.obj [("to", .str "0x01"), ("value", .str "0x10"),
          ("nonce", Json.null)]]))
      = runSign wstub0 (.sendTransaction (some (.str "0x01")) none (some 16) none
          none sepolia)
    ∧ request cfg0 sepolia wstub0 trRes "eth_sendTransaction"
        (some (.arr [.obj [("value", .str "1.5")]]))
      = (.error "SyntaxError: Cannot convert 1.5 to a BigInt", [], [])
    ∧ jsBigInt (.num (3 / 2)) = .error "RangeError: not an integer" :=
  ⟨(c8_sendCoercion_spec.1 cfg0 sepolia wstub0 trRes
      [("to", .str "0x01"), ("value", .str "0x10"), ("nonce", Json.null)]).1
      (some 16) none rfl rfl,
    (c8_sendCoercion_spec.1 cfg0 sepolia wstub0 trRes [("value", .str "1.5")]).2.1
      "SyntaxError: Cannot convert 1.5 to a BigInt" rfl,
    c8_sendCoercion_spec.2.2.2.1 (3 / 2) (by with_unfolding_all decide)⟩

/-- Witness for C7 at a concrete payload whose types map declares
EIP712Domain alongside Mail. -/
theorem c7_witness :
    request cfg0 sepolia wstub0 trRes "eth_signTypedData_v4"
        (some (.arr [.null, .obj [("domain", .null),
          ("types", .obj [("EIP712Domain", .arr []), ("Mail", .arr [])]),
          ("primaryType", .str "Mail"), ("message", .obj [])]]))
      = request cfg0 sepolia wstub0 trRes "eth_signTypedData_v4"
        (some (.arr [.null, .obj [("domain", .null),
          ("types", .obj [("EIP712Domain", .arr []), ("Mail", .arr [])]),
          ("primary_type", .str "Mail"), ("message", .obj [])]]))
    ∧ (("Mail", Json.arr []) : String × Json).1 ≠ "EIP712Domain" :=
  ⟨(c7_typedData_spec cfg0 sepolia wstub0 trRes .null .null (.obj [])
      [("EIP712Domain", .arr []), ("Mail", .arr [])] "Mail").1,
    (c7_typedData_spec cfg0 sepolia wstub0 trRes .null .null (.obj [])
      [("EIP712Domain", .arr []), ("Mail", .arr [])] "Mail").2.2
      ("Mail", .arr []) (by decide)⟩
